import Mathlib

/-!
Verification of the windowed extraction pipeline in
src/ADS-B_GPS_TrinoDB_Analysis.py.

Instants are modelled as UNIX epoch seconds (Nat); the script converts
naive datetimes to epoch seconds before use, and all date arithmetic in
the loop is a fixed stride added repeatedly.
-/

/-- The day-by-day window loop of main (lines 58-91): starting at start_date,
emit (current, current + delta) while current < end_date, then advance
current to current + delta.  Arguments are epoch seconds. -/
def windows (start stop stride : Nat) : List (Nat × Nat) :=
  if _h : 0 < stride ∧ start < stop then
    (start, start + stride) :: windows (start + stride) stop stride
  else []
termination_by stop - start
decreasing_by omega

/-- Closed form used in proofs: n consecutive windows of width stride from start. -/
def windowList (start stride : Nat) : Nat → List (Nat × Nat)
  | 0 => []
  | n + 1 => (start, start + stride) :: windowList (start + stride) stride n

/-- Number of windows the loop emits: ceiling of (stop - start) / stride. -/
def numWindows (start stop stride : Nat) : Nat :=
  (stop - start + stride - 1) / stride

theorem numWindows_zero (start stop stride : Nat) (hd : 0 < stride) (h : stop ≤ start) :
    numWindows start stop stride = 0 := by
  unfold numWindows
  have h0 : stop - start = 0 := by omega
  rw [h0]
  exact Nat.div_eq_of_lt (by omega)

theorem numWindows_succ (start stop stride : Nat) (hd : 0 < stride) (h : start < stop) :
    numWindows start stop stride = numWindows (start + stride) stop stride + 1 := by
  unfold numWindows
  by_cases hc : stop ≤ start + stride
  · have h1 : stop - (start + stride) = 0 := by omega
    rw [h1]
    have h2 : (0 + stride - 1) / stride = 0 := Nat.div_eq_of_lt (by omega)
    rw [h2]
    exact Nat.div_eq_of_lt_le (by omega) (by omega)
  · have h1 : stop - start + stride - 1 = (stop - (start + stride) + stride - 1) + stride := by
      omega
    rw [h1, Nat.add_div_right _ hd]

theorem windows_eq_windowList (stop stride : Nat) (hd : 0 < stride) :
    ∀ start, windows start stop stride = windowList start stride (numWindows start stop stride) := by
  have H : ∀ n start, stop - start ≤ n →
      windows start stop stride = windowList start stride (numWindows start stop stride) := by
    intro n
    induction n with
    | zero =>
      intro start hle
      rw [windows, numWindows_zero _ _ _ hd (by omega)]
      rw [dif_neg (by omega)]
      rfl
    | succ n ih =>
      intro start hle
      by_cases hlt : start < stop
      · rw [windows, dif_pos ⟨hd, hlt⟩, numWindows_succ _ _ _ hd hlt]
        rw [ih (start + stride) (by omega)]
        rfl
      · rw [windows, numWindows_zero _ _ _ hd (by omega)]
        rw [dif_neg (by omega)]
        rfl
  intro start
  exact H (stop - start) start (Nat.le_refl _)

theorem windowList_length (stride : Nat) :
    ∀ n start, (windowList start stride n).length = n := by
  intro n
  induction n with
  | zero => intro start; rfl
  | succ n ih => intro start; simp [windowList, ih]

theorem windowList_get (stride : Nat) :
    ∀ n start i (h : i < (windowList start stride n).length),
      (windowList start stride n).get ⟨i, h⟩ =
        (start + stride * i, start + stride * i + stride) := by
  intro n
  induction n with
  | zero => intro start i h; simp [windowList_length] at h
  | succ n ih =>
    intro start i h
    match i with
    | 0 => simp [windowList]
    | i + 1 =>
      have h' : i < (windowList (start + stride) stride n).length := by
        simp [windowList_length] at h ⊢; omega
      have := ih (start + stride) i h'
      simp only [windowList, List.get_cons_succ]
      rw [this]
      simp only [Prod.mk.injEq, Nat.mul_succ]
      omega

theorem windowList_cover (stride : Nat) :
    ∀ n start t, start ≤ t → t < start + stride * n →
      ∃ w ∈ windowList start stride n, w.1 ≤ t ∧ t < w.2 := by
  intro n
  induction n with
  | zero => intro start t h1 h2; omega
  | succ n ih =>
    intro start t h1 h2
    by_cases hc : t < start + stride
    · exact ⟨(start, start + stride), List.mem_cons_self _ _, h1, hc⟩
    · have h2' : t < (start + stride) + stride * n := by
        rw [Nat.mul_succ] at h2; omega
      obtain ⟨w, hw, hw1, hw2⟩ := ih (start + stride) t (by omega) h2'
      exact ⟨w, List.mem_cons_of_mem _ hw, hw1, hw2⟩

theorem numWindows_mul_ge (start stop stride : Nat) (hd : 0 < stride) (h : start < stop) :
    stop ≤ start + stride * numWindows start stop stride := by
  unfold numWindows
  have hdm := Nat.div_add_mod (stop - start + stride - 1) stride
  have hr : (stop - start + stride - 1) % stride < stride := Nat.mod_lt _ hd
  omega

theorem numWindows_start_lt (start stop stride : Nat) (hd : 0 < stride) (h : start < stop)
    (i : Nat) (hi : i < numWindows start stop stride) :
    start + stride * i < stop := by
  have h2 : numWindows start stop stride * stride ≤ stop - start + stride - 1 :=
    Nat.div_mul_le_self _ _
  have h3 : stride * (i + 1) ≤ stride * numWindows start stop stride :=
    Nat.mul_le_mul_left stride (by omega)
  rw [Nat.mul_succ] at h3
  have h4 : stride * numWindows start stop stride = numWindows start stop stride * stride :=
    Nat.mul_comm _ _
  omega

/-- C1: for every valid configuration with start < stop and positive stride, the
window loop yields a finite list of windows with the i-th window equal to
(start + stride * i, start + stride * i + stride) - hence the first window
starts at start, every window has width stride, consecutive windows are
contiguous (each start equals the previous end), the list is ascending and
non-overlapping - the count equals the ceiling of (stop - start) / stride,
no emitted window has its start at or past stop, and the union of the
windows covers every instant of the half-open range [start, stop). -/
theorem windowIterator_spec (start stop stride : Nat) (h1 : start < stop) (h2 : 0 < stride) :
    (windows start stop stride).length = (stop - start + stride - 1) / stride ∧
    (∀ i (h : i < (windows start stop stride).length),
       (windows start stop stride).get ⟨i, h⟩ =
         (start + stride * i, start + stride * i + stride)) ∧
    (∀ i (hi : i < (windows start stop stride).length)
       (hj : i + 1 < (windows start stop stride).length),
       ((windows start stop stride).get ⟨i, hi⟩).2 =
         ((windows start stop stride).get ⟨i + 1, hj⟩).1) ∧
    (∀ i j (hi : i < (windows start stop stride).length)
       (hj : j < (windows start stop stride).length), i < j →
       ((windows start stop stride).get ⟨i, hi⟩).2 ≤
         ((windows start stop stride).get ⟨j, hj⟩).1) ∧
    (∀ w ∈ windows start stop stride, w.1 < stop ∧ w.2 = w.1 + stride) ∧
    (∀ t, start ≤ t → t < stop →
       ∃ w ∈ windows start stop stride, w.1 ≤ t ∧ t < w.2) := by
  have hw := windows_eq_windowList stop stride h2 start
  have hlen : (windows start stop stride).length = numWindows start stop stride := by
    rw [hw, windowList_length]
  have hget : ∀ i (h : i < (windows start stop stride).length),
      (windows start stop stride).get ⟨i, h⟩ =
        (start + stride * i, start + stride * i + stride) := by
    intro i h
    rw [List.get_of_eq hw ⟨i, h⟩]
    exact windowList_get _ _ _ _ _
  refine ⟨hlen, hget, ?_, ?_, ?_, ?_⟩
  · intro i hi hj
    rw [hget i hi, hget (i + 1) hj]
    simp [Nat.mul_succ]; ring
  · intro i j hi hj hij
    rw [hget i hi, hget j hj]
    simp only
    have : stride * (i + 1) ≤ stride * j := Nat.mul_le_mul_left stride (by omega)
    rw [Nat.mul_succ] at this
    omega
  · intro w hwm
    rw [hw] at hwm
    obtain ⟨⟨i, h⟩, hwi⟩ := List.mem_iff_get.mp hwm
    rw [windowList_get _ _ _ _ _] at hwi
    have hi : i < numWindows start stop stride := by
      rw [windowList_length] at h; exact h
    have hlt := numWindows_start_lt start stop stride h2 h1 i hi
    rw [← hwi]
    exact ⟨hlt, rfl⟩
  · intro t ht1 ht2
    have hcov : t < start + stride * numWindows start stop stride := by
      have := numWindows_mul_ge start stop stride h2 h1
      omega
    obtain ⟨w, hwm, hw1, hw2⟩ :=
      windowList_cover stride (numWindows start stop stride) start t ht1 hcov
    exact ⟨w, by rw [hw]; exact hwm, hw1, hw2⟩

theorem windowIterator_spec_witness :
    (windows 0 3 2).length = (3 - 0 + 2 - 1) / 2 ∧
    (∀ w ∈ windows 0 3 2, w.1 < 3 ∧ w.2 = w.1 + 2) := by
  have h := windowIterator_spec 0 3 2 (by decide) (by decide)
  exact ⟨h.1, h.2.2.2.2.1⟩

/-- Days-since-epoch to civil calendar date (year, month, day), the conversion
datetime performs when strftime renders a naive UTC datetime; standard
era-based civil-from-days computation, valid for nonnegative epochs. -/
def civilFromDays (z : Nat) : Nat × Nat × Nat :=
  let z' := z + 719468
  let era := z' / 146097
  let doe := z' % 146097
  let yoe := (doe - doe / 1460 + doe / 36524 - doe / 146097) / 365
  let y := yoe + era * 400
  let doy := doe - (365 * yoe + yoe / 4 - yoe / 100)
  let mp := (5 * doy + 2) / 153
  let d := doy - (153 * mp + 2) / 5 + 1
  let m := if mp < 10 then mp + 3 else mp - 9
  (if m ≤ 2 then y + 1 else y, m, d)

/-- Zero-padded two-digit decimal rendering used by the m and d fields of
the strftime percent-Y dash percent-m dash percent-d format. -/
def pad2 (n : Nat) : String :=
  if n < 10 then "0" ++ toString n else toString n

/-- Rendering of an epoch-seconds instant in the percent-Y dash percent-m dash
percent-d strftime format used at line 81 of the script. -/
def fmtDate (epoch : Nat) : String :=
  let c := civilFromDays (epoch / 86400)
  toString c.1 ++ "-" ++ pad2 c.2.1 ++ "-" ++ pad2 c.2.2

/-- The output file name built at line 81: start epoch, dash, end epoch,
underscore, start date, underscore to underscore, end date, .xlsx suffix. -/
def general_file_name (ws we : Nat) : String :=
  toString ws ++ "-" ++ toString we ++ "_" ++ fmtDate ws ++ "_to_" ++ fmtDate we ++ ".xlsx"

/-- Radians from degrees, as used by any great-circle computation. -/
noncomputable def rad (x : ℝ) : ℝ := x * (Real.pi / 180)

/-- Mean earth radius in meters. -/
noncomputable def earthRadius : ℝ := 6371008.8

/-- Modelled from the spec: the geodesic distance itself is computed by the
external geopy library, whose implementation is not part of this repository;
section 4.3 of the spec describes it as a great-circle distance in meters
between two latitude-longitude pairs given in degrees.  Modelled as the
great-circle central angle scaled by the earth radius, which realises the
metric properties (symmetry, zero at identical points, nonnegativity,
boundedness) the spec attributes to DistanceCalculator. -/
noncomputable def geodesicMeters (plat plon nlat nlon : ℝ) : ℝ :=
  earthRadius * Real.arccos (Real.sin (rad plat) * Real.sin (rad nlat) +
    Real.cos (rad plat) * Real.cos (rad nlat) * Real.cos (rad nlon - rad plon))

/-- A cell of the tabular result: the numeric fields carry reals, everything
else is kept as text. -/
inductive Val where
  | num (x : ℝ)
  | str (s : String)

/-- Column lookup by name on a positional row, as pandas does when a row
Series is indexed by label: find the label in the column list, then read
the cell at that position. -/
def lookupCell (cols : List String) (row : List Val) (name : String) : Option Val :=
  match cols.findIdx? (fun c => c = name) with
  | some i => row.get? i
  | none => none

/-- calculate_distance (lines 33-35): reads the four coordinate cells of the
row by label and returns the geodesic distance between the previous and next
points; a missing label or a non-numeric cell raises, which the per-window
handler catches. -/
noncomputable def calculate_distance (cols : List String) (row : List Val) :
    Except String ℝ :=
  match lookupCell cols row "previous_latitude", lookupCell cols row "previous_longitude",
      lookupCell cols row "next_latitude", lookupCell cols row "next_longitude" with
  | some (Val.num plat), some (Val.num plon), some (Val.num nlat), some (Val.num nlon) =>
      Except.ok (geodesicMeters plat plon nlat nlon)
  | _, _, _, _ => Except.error "KeyError"


theorem geodesicMeters_self (a b : ℝ) : geodesicMeters a b a b = 0 := by
  unfold geodesicMeters
  rw [sub_self, Real.cos_zero, mul_one, ← pow_two, ← pow_two,
    Real.sin_sq_add_cos_sq, Real.arccos_one, mul_zero]

theorem geodesicMeters_comm (plat plon nlat nlon : ℝ) :
    geodesicMeters plat plon nlat nlon = geodesicMeters nlat nlon plat plon := by
  unfold geodesicMeters
  have h : rad plon - rad nlon = -(rad nlon - rad plon) := by ring
  rw [h, Real.cos_neg]
  ring_nf

theorem earthRadius_pos : (0 : ℝ) < earthRadius := by
  unfold earthRadius; norm_num

theorem geodesicMeters_nonneg (plat plon nlat nlon : ℝ) :
    0 ≤ geodesicMeters plat plon nlat nlon :=
  mul_nonneg (le_of_lt earthRadius_pos) (Real.arccos_nonneg _)

theorem geodesicMeters_le (plat plon nlat nlon : ℝ) :
    geodesicMeters plat plon nlat nlon ≤ earthRadius * Real.pi :=
  mul_le_mul_of_nonneg_left (Real.arccos_le_pi _) (le_of_lt earthRadius_pos)

/-- C6: the distance is symmetric under exchanging the two points, zero on
identical points, nonnegative and bounded above by earth radius times pi
(hence finite); and the concrete row with previous and next both equal to
(40.0, -73.0) gets between_coords_distance_m equal to zero. -/
theorem distanceCalculator_spec :
    (∀ plat plon nlat nlon : ℝ,
       geodesicMeters plat plon nlat nlon = geodesicMeters nlat nlon plat plon) ∧
    (∀ lat lon : ℝ, geodesicMeters lat lon lat lon = 0) ∧
    (∀ plat plon nlat nlon : ℝ,
       0 ≤ geodesicMeters plat plon nlat nlon ∧
       geodesicMeters plat plon nlat nlon ≤ earthRadius * Real.pi) ∧
    calculate_distance
      ["previous_latitude", "previous_longitude", "next_latitude", "next_longitude"]
      [Val.num 40, Val.num (-73), Val.num 40, Val.num (-73)] = Except.ok 0 := by
  refine ⟨geodesicMeters_comm, geodesicMeters_self,
    fun plat plon nlat nlon => ⟨geodesicMeters_nonneg _ _ _ _, geodesicMeters_le _ _ _ _⟩, ?_⟩
  have h : calculate_distance
      ["previous_latitude", "previous_longitude", "next_latitude", "next_longitude"]
      [Val.num 40, Val.num (-73), Val.num 40, Val.num (-73)] =
      Except.ok (geodesicMeters 40 (-73) 40 (-73)) := rfl
  rw [h, geodesicMeters_self]

/-- Modelled from the spec: section 4.3 requires the calculator to fail with
InvalidCoordinateError when a latitude is outside plus or minus 90 degrees
or a longitude is outside plus or minus 180 degrees; the repository code
performs no validation of its own, delegating it to the external geopy
library whose implementation is not part of this repository.  Over the
real-number embedding every value is finite, so only the range checks are
represented. -/
noncomputable def distanceChecked (plat plon nlat nlon : ℝ) : Except String ℝ :=
  if -90 ≤ plat ∧ plat ≤ 90 ∧ -90 ≤ nlat ∧ nlat ≤ 90 ∧
     -180 ≤ plon ∧ plon ≤ 180 ∧ -180 ≤ nlon ∧ nlon ≤ 180 then
    Except.ok (geodesicMeters plat plon nlat nlon)
  else Except.error "InvalidCoordinateError"

/-- C7: on the valid domain the checked calculator totally returns the
geodesic distance, and whenever either coordinate pair is out of range it
fails with InvalidCoordinateError. -/
theorem distanceChecked_spec (plat plon nlat nlon : ℝ) :
    (( -90 ≤ plat ∧ plat ≤ 90 ∧ -90 ≤ nlat ∧ nlat ≤ 90 ∧
       -180 ≤ plon ∧ plon ≤ 180 ∧ -180 ≤ nlon ∧ nlon ≤ 180) →
      distanceChecked plat plon nlat nlon =
        Except.ok (geodesicMeters plat plon nlat nlon)) ∧
    ((¬ ( -90 ≤ plat ∧ plat ≤ 90 ∧ -90 ≤ nlat ∧ nlat ≤ 90 ∧
       -180 ≤ plon ∧ plon ≤ 180 ∧ -180 ≤ nlon ∧ nlon ≤ 180)) →
      distanceChecked plat plon nlat nlon = Except.error "InvalidCoordinateError") := by
  constructor
  · intro h; unfold distanceChecked; rw [if_pos h]
  · intro h; unfold distanceChecked; rw [if_neg h]

theorem distanceChecked_spec_witness :
    distanceChecked 40 (-73) 40 (-73) = Except.ok (geodesicMeters 40 (-73) 40 (-73)) ∧
    distanceChecked 91 0 40 (-73) = Except.error "InvalidCoordinateError" :=
  ⟨(distanceChecked_spec 40 (-73) 40 (-73)).1 (by norm_num),
   (distanceChecked_spec 91 0 40 (-73)).2 (by norm_num)⟩

/-- First index of a label in a column list, as pandas label lookup resolves
a column name to a position. -/
def idxOf (cols : List String) (c : String) : Option Nat :=
  match cols with
  | [] => none
  | c' :: cs => if c' = c then some 0 else (idxOf cs c).map (fun i => i + 1)

/-- The canonical 16-column output order of line 78. -/
def canonicalCols : List String :=
  ["icao24", "callsign", "null_start_time", "null_end_time",
   "time_of_previous_not_null_coords", "time_of_next_not_null_coords",
   "previous_latitude", "previous_longitude", "next_latitude", "next_longitude",
   "between_coords_distance_m", "null_duration_seconds",
   "between_coords_duration_seconds", "avg_nic", "min_nic", "max_nic"]

/-- The 15 columns the remote result must supply: the canonical schema
without the derived distance column. -/
def requiredSourceCols : List String :=
  ["icao24", "callsign", "null_start_time", "null_end_time",
   "time_of_previous_not_null_coords", "time_of_next_not_null_coords",
   "previous_latitude", "previous_longitude", "next_latitude", "next_longitude",
   "null_duration_seconds", "between_coords_duration_seconds",
   "avg_nic", "min_nic", "max_nic"]

/-- The df.apply pass of line 77: compute the distance of every row in order,
failing on the first row whose coordinate cells cannot be read. -/
noncomputable def applyDistance (cols : List String) :
    List (List Val) → Except String (List (List Val))
  | [] => Except.ok []
  | r :: rs =>
    match calculate_distance cols r, applyDistance cols rs with
    | Except.ok d, Except.ok rest => Except.ok ((r ++ [Val.num d]) :: rest)
    | Except.error e, _ => Except.error e
    | Except.ok _, Except.error e => Except.error e

/-- Indices of the wanted labels in the column list; none when a label is
absent, which pandas reports as a key error. -/
def findIndices : List String → List String → Option (List Nat)
  | [], _ => some []
  | c :: cs, cols =>
    match idxOf cols c, findIndices cs cols with
    | some i, some is => some (i :: is)
    | _, _ => none

/-- Reading one selected row: the cells at the selected positions in order. -/
def selRow (idxs : List Nat) (row : List Val) : List Val :=
  idxs.filterMap (fun i => row.get? i)

/-- The column selection df[[...]] of line 78 on the distance-augmented table:
resolve all 16 canonical labels, then read every row at those positions. -/
def selectCols (cols : List String) (rows : List (List Val)) :
    Except String (List String × List (List Val)) :=
  match findIndices canonicalCols cols with
  | some idxs => Except.ok (canonicalCols, rows.map (selRow idxs))
  | none => Except.error "KeyError"

/-- Lines 74-78 as one function from the fetched table to the exported table:
append the computed distance column, then select the canonical 16 columns. -/
noncomputable def projectTable (cols : List String) (rows : List (List Val)) :
    Except String (List String × List (List Val)) :=
  match applyDistance cols rows with
  | Except.error e => Except.error e
  | Except.ok rows' => selectCols (cols ++ ["between_coords_distance_m"]) rows'

theorem applyDistance_ok (cols : List String) :
    ∀ rows rows', applyDistance cols rows = Except.ok rows' →
      rows'.length = rows.length ∧
      ∀ i (h : i < rows.length) (h' : i < rows'.length),
        ∃ d, calculate_distance cols (rows.get ⟨i, h⟩) = Except.ok d ∧
          rows'.get ⟨i, h'⟩ = rows.get ⟨i, h⟩ ++ [Val.num d] := by
  intro rows
  induction rows with
  | nil =>
    intro rows' h
    have h0 : rows' = [] := by
      unfold applyDistance at h
      cases h
      rfl
    subst h0
    exact ⟨rfl, fun i h _ => absurd h (by simp)⟩
  | cons r rs ih =>
    intro rows' h
    unfold applyDistance at h
    cases hc : calculate_distance cols r with
    | error e => rw [hc] at h; cases h
    | ok d =>
      rw [hc] at h
      cases ha : applyDistance cols rs with
      | error e => rw [ha] at h; cases h
      | ok rest =>
        rw [ha] at h
        have hr : rows' = (r ++ [Val.num d]) :: rest := by
          cases h; rfl
        subst hr
        obtain ⟨hlen, hptw⟩ := ih rest ha
        refine ⟨by simp [hlen], ?_⟩
        intro i hi hi'
        match i with
        | 0 => exact ⟨d, hc, rfl⟩
        | i + 1 =>
          have hi2 : i < rs.length := by simpa using hi
          have hi2' : i < rest.length := by simpa using hi'
          exact hptw i hi2 hi2'

/-- C4: whenever the projection succeeds, the output carries exactly the 16
canonical columns in canonical order, has exactly as many rows as the input,
and its i-th row is exactly what projecting the i-th input row alone yields,
so row order is preserved and nothing is filtered or re-sorted. -/
theorem resultProjector_spec (cols : List String) (rows : List (List Val))
    (out : List String × List (List Val)) (h : projectTable cols rows = Except.ok out) :
    out.1 = canonicalCols ∧
    out.2.length = rows.length ∧
    ∀ i (hi : i < rows.length) (hi' : i < out.2.length),
      projectTable cols [rows.get ⟨i, hi⟩] =
        Except.ok (canonicalCols, [out.2.get ⟨i, hi'⟩]) := by
  unfold projectTable at h
  cases ha : applyDistance cols rows with
  | error e => rw [ha] at h; cases h
  | ok rows' =>
    rw [ha] at h
    unfold selectCols at h
    cases hf : findIndices canonicalCols (cols ++ ["between_coords_distance_m"]) with
    | none => rw [hf] at h; cases h
    | some idxs =>
      rw [hf] at h
      have hout : out = (canonicalCols, rows'.map (selRow idxs)) := by cases h; rfl
      subst hout
      obtain ⟨hlen, hptw⟩ := applyDistance_ok cols rows rows' ha
      refine ⟨rfl, by simpa using hlen, ?_⟩
      intro i hi hi'
      have hi2 : i < rows'.length := by simpa using hi'
      obtain ⟨d, hcalc, hget⟩ := hptw i hi hi2
      have hsingle : applyDistance cols [rows.get ⟨i, hi⟩] =
          Except.ok [rows.get ⟨i, hi⟩ ++ [Val.num d]] := by
        simp only [applyDistance, hcalc]
      unfold projectTable
      rw [hsingle]
      unfold selectCols
      rw [hf]
      have : (rows'.map (selRow idxs)).get ⟨i, hi'⟩ = selRow idxs (rows.get ⟨i, hi⟩ ++ [Val.num d]) := by
        rw [List.get_map]
        exact congrArg (selRow idxs) hget
      simp only [this]
      rfl

theorem resultProjector_spec_witness :
    projectTable requiredSourceCols [] = Except.ok (canonicalCols, []) ∧
    (canonicalCols, ([] : List (List Val))).1 = canonicalCols ∧
    (canonicalCols, ([] : List (List Val))).2.length = ([] : List (List Val)).length := by
  have h : projectTable requiredSourceCols [] = Except.ok (canonicalCols, []) := rfl
  exact ⟨h, (resultProjector_spec requiredSourceCols [] _ h).1,
    (resultProjector_spec requiredSourceCols [] _ h).2.1⟩

theorem idxOf_none_of_not_mem (c : String) :
    ∀ cols : List String, c ∉ cols → idxOf cols c = none := by
  intro cols
  induction cols with
  | nil => intro _; rfl
  | cons c' cs ih =>
    intro hm
    simp only [List.mem_cons, not_or] at hm
    unfold idxOf
    rw [if_neg (fun h => hm.1 h.symm), ih hm.2]
    rfl

theorem findIndices_none_of_missing (c : String) :
    ∀ cs cols : List String, c ∈ cs → c ∉ cols → findIndices cs cols = none := by
  intro cs
  induction cs with
  | nil => intro cols hc; simp at hc
  | cons c' cs' ih =>
    intro cols hc hm
    unfold findIndices
    rcases List.mem_cons.mp hc with hc1 | hc2
    · subst hc1
      rw [idxOf_none_of_not_mem c cols hm]
    · cases h1 : idxOf cols c' with
      | none => rfl
      | some i =>
        rw [ih cols hc2 hm]

/-- C8 counterexample input: the source columns with icao24 removed. -/
def colsMissingIcao : List String :=
  ["callsign", "null_start_time", "null_end_time",
   "time_of_previous_not_null_coords", "time_of_next_not_null_coords",
   "previous_latitude", "previous_longitude", "next_latitude", "next_longitude",
   "null_duration_seconds", "between_coords_duration_seconds",
   "avg_nic", "min_nic", "max_nic"]

/-- C8 counterexample input: one raw row aligned to colsMissingIcao, with
numeric coordinate cells. -/
noncomputable def rowMissingIcao : List Val :=
  [Val.str "CAL123", Val.str "t0", Val.str "t1", Val.str "t2", Val.str "t3",
   Val.num 40, Val.num (-73), Val.num 40.5, Val.num (-73.5),
   Val.num 600, Val.num 700, Val.num 7, Val.num 6, Val.num 8]

/-- C8 counterexample: on an input table that lacks the required column icao24
but still has the coordinate columns, the distance pass of line 77 succeeds -
the projector indexes the coordinate columns and computes every distance -
and only the later 16-column selection of line 78 fails; hence no presence
check happens before columns are indexed. -/
theorem missingColumn_counterexample :
    ("icao24" ∈ requiredSourceCols ∧ "icao24" ∉ colsMissingIcao) ∧
    (applyDistance colsMissingIcao [rowMissingIcao]).isOk = true ∧
    (projectTable colsMissingIcao [rowMissingIcao]).isOk = false :=
  ⟨by decide, rfl, rfl⟩

/-- C8 as amended: the projector does fail whenever a required source column
is missing, but the failure arises at the point of use - the coordinate
columns are indexed by the distance pass before the 16-column selection
checks the remaining labels - not from an up-front presence check. -/
theorem missingColumn_spec (cols : List String) (rows : List (List Val)) (c : String)
    (hc : c ∈ requiredSourceCols) (hm : c ∉ cols) :
    ∃ e, projectTable cols rows = Except.error e := by
  cases ha : applyDistance cols rows with
  | error e => exact ⟨e, by unfold projectTable; rw [ha]⟩
  | ok rows' =>
    refine ⟨"KeyError", ?_⟩
    unfold projectTable
    rw [ha]
    unfold selectCols
    have hcan : c ∈ canonicalCols := by
      fin_cases hc <;> decide
    have hne : c ≠ "between_coords_distance_m" := by
      fin_cases hc <;> decide
    have hm2 : c ∉ cols ++ ["between_coords_distance_m"] := by
      simp [hm, hne]
    rw [findIndices_none_of_missing c canonicalCols _ hcan hm2]

theorem missingColumn_spec_witness :
    ∃ e, projectTable colsMissingIcao [] = Except.error e :=
  missingColumn_spec colsMissingIcao [] "icao24" (by decide) (by decide)

/-- The configured range start of line 12, datetime(2023, 1, 1) as a UTC epoch. -/
def start_date : Nat := 1672531200

/-- The configured range end of line 13, datetime(2024, 1, 1) as a UTC epoch. -/
def end_date : Nat := 1704067200

/-- The stride of line 14, timedelta(days = 1) in seconds. -/
def delta : Nat := 86400

/-- The text assigned to prepared_statement at line 47: a triple-quoted
literal holding a single space. -/
def prepared_statement : String := " "

/-- The per-window statement text built by the f-string at lines 66-68: the
window epochs are formatted directly into the text. -/
def execute_statement (cur next : Nat) : String :=
  "\n            EXECUTE flight_analysis USING " ++ toString cur ++ ", " ++
    toString next ++ "\n        "

/-- Severity of a log line. -/
inductive Level where
  | info
  | error
deriving DecidableEq

/-- One log line: severity and message. -/
structure LogEntry where
  level : Level
  msg : String
deriving DecidableEq

/-- The external collaborators of the run, supplied as oracles: connection
establishment, statement execution against the remote store (returning
column names and rows), spreadsheet writing keyed by file name, and
connection teardown. -/
structure Env where
  connectResult : Except String Unit
  executeResult : String → Except String (List String × List (List Val))
  writeResult : String → Except String Unit
  closeResult : Except String Unit

/-- What the run observably did: every statement text passed to the cursor,
every file written, the log, and whether cursor and connection were closed. -/
structure RunResult where
  submitted : List String
  files : List String
  logs : List LogEntry
  released : Bool
deriving DecidableEq

/-- One iteration of the loop body (lines 59-91) for window w: submit the
interpolated execute statement, then on success project the fetched table
and write the spreadsheet; any failure in the chain is caught and logged as
one error line (lines 87-88).  Returns the statements submitted, the files
written and the log lines of this window. -/
noncomputable def processWindow (env : Env) (w : Nat × Nat) :
    List String × List String × List LogEntry :=
  match env.executeResult (execute_statement w.1 w.2) with
  | Except.error e =>
      ([execute_statement w.1 w.2], [],
       [⟨Level.error, "Failed during SQL execution or file operation: " ++ e⟩])
  | Except.ok t =>
    match projectTable t.1 t.2 with
    | Except.error e =>
        ([execute_statement w.1 w.2], [],
         [⟨Level.error, "Failed during SQL execution or file operation: " ++ e⟩])
    | Except.ok _ =>
      match env.writeResult (general_file_name w.1 w.2) with
      | Except.error e =>
          ([execute_statement w.1 w.2], [],
           [⟨Level.error, "Failed during SQL execution or file operation: " ++ e⟩])
      | Except.ok _ =>
          ([execute_statement w.1 w.2], [general_file_name w.1 w.2],
           [⟨Level.info, "Data written to " ++ general_file_name w.1 w.2⟩])

/-- Whether the whole chain of window w succeeds under env. -/
noncomputable def windowSucceeds (env : Env) (w : Nat × Nat) : Bool :=
  match env.executeResult (execute_statement w.1 w.2) with
  | Except.error _ => false
  | Except.ok t =>
    match projectTable t.1 t.2 with
    | Except.error _ => false
    | Except.ok _ => (env.writeResult (general_file_name w.1 w.2)).isOk

/-- The whole run of main (lines 37-98) over a configured range: connect,
submit the preparation statement, then process each window in order, and
finally close cursor and connection (logging, not raising, a teardown
failure). -/
noncomputable def main (env : Env) (startEpoch stopEpoch stride : Nat) : RunResult :=
  match env.connectResult with
  | Except.error e =>
      ⟨[], [],
       [⟨Level.error, "Failed to connect to the database: " ++ e⟩,
        ⟨Level.error, "Could not establish database connection: " ++ e⟩], false⟩
  | Except.ok _ =>
    match env.executeResult prepared_statement with
    | Except.error e =>
        ⟨[prepared_statement], [],
         [⟨Level.info, "Database connection established successfully."⟩,
          ⟨Level.error, "Failed to prepare the SQL statement: " ++ e⟩], true⟩
    | Except.ok _ =>
      let per := (windows startEpoch stopEpoch stride).map (processWindow env)
      let closeLogs : List LogEntry :=
        match env.closeResult with
        | Except.ok _ => []
        | Except.error e => [⟨Level.error, "Failed to close database connection: " ++ e⟩]
      ⟨prepared_statement :: (per.map (fun p => p.1)).flatten,
       (per.map (fun p => p.2.1)).flatten,
       [⟨Level.info, "Database connection established successfully."⟩,
        ⟨Level.info, "SQL statement prepared and executed successfully."⟩] ++
         (per.map (fun p => p.2.2)).flatten ++ closeLogs,
       true⟩

theorem processWindow_submitted (env : Env) (w : Nat × Nat) :
    (processWindow env w).1 = [execute_statement w.1 w.2] := by
  unfold processWindow
  split
  · rfl
  · split
    · rfl
    · split <;> rfl

theorem processWindow_fail (env : Env) (w : Nat × Nat)
    (h : windowSucceeds env w = false) :
    ∃ m, processWindow env w =
      ([execute_statement w.1 w.2], [],
       [⟨Level.error, "Failed during SQL execution or file operation: " ++ m⟩]) := by
  unfold windowSucceeds at h
  unfold processWindow
  split at h
  · rename_i e heq
    exact ⟨e, rfl⟩
  · rename_i t heq
    split at h
    · rename_i e heq2
      exact ⟨e, rfl⟩
    · rename_i u heq2
      cases hW : env.writeResult (general_file_name w.1 w.2) with
      | error e => exact ⟨e, rfl⟩
      | ok v => rw [hW] at h; simp [Except.isOk, Except.toBool] at h

theorem processWindow_success (env : Env) (w : Nat × Nat)
    (h : windowSucceeds env w = true) :
    processWindow env w =
      ([execute_statement w.1 w.2], [general_file_name w.1 w.2],
       [⟨Level.info, "Data written to " ++ general_file_name w.1 w.2⟩]) := by
  unfold windowSucceeds at h
  unfold processWindow
  split at h
  · cases h
  · rename_i t heq
    split at h
    · cases h
    · rename_i u heq2
      cases hW : env.writeResult (general_file_name w.1 w.2) with
      | error e => rw [hW] at h; simp [Except.isOk, Except.toBool] at h
      | ok v => rfl

theorem main_components (env : Env) (s e d : Nat)
    (hc : env.connectResult = Except.ok ())
    (hp : (env.executeResult prepared_statement).isOk = true) :
    (main env s e d).submitted =
      prepared_statement ::
        (((windows s e d).map (processWindow env)).map (fun p => p.1)).flatten ∧
    (main env s e d).files =
      (((windows s e d).map (processWindow env)).map (fun p => p.2.1)).flatten ∧
    (∀ entry (w : Nat × Nat), w ∈ windows s e d → entry ∈ (processWindow env w).2.2 →
      entry ∈ (main env s e d).logs) ∧
    (main env s e d).released = true := by
  unfold main
  simp only [hc]
  cases hE : env.executeResult prepared_statement with
  | error e2 => rw [hE] at hp; simp [Except.isOk, Except.toBool] at hp
  | ok t =>
    refine ⟨rfl, rfl, ?_, rfl⟩
    intro entry w hw hentry
    show entry ∈
      [LogEntry.mk Level.info "Database connection established successfully.",
       LogEntry.mk Level.info "SQL statement prepared and executed successfully."] ++
        (((windows s e d).map (processWindow env)).map (fun p => p.2.2)).flatten ++
        (match env.closeResult with
         | Except.ok _ => []
         | Except.error e2 =>
             [LogEntry.mk Level.error ("Failed to close database connection: " ++ e2)])
    simp only [List.mem_append, List.mem_flatten]
    left; right
    refine ⟨(processWindow env w).2.2, ?_, hentry⟩
    simp only [List.map_map, List.mem_map]
    exact ⟨w, hw, rfl⟩

/-- C3: under an established connection and a successful preparation, a
window whose query-project-export chain fails contributes exactly one
caught error log line and no output file, while the run still submits the
execute statement of every window in order and still writes the file of
every window whose chain succeeds. -/
theorem perWindowIsolation (env : Env) (s e d : Nat) (w : Nat × Nat)
    (hw : w ∈ windows s e d)
    (hc : env.connectResult = Except.ok ())
    (hp : (env.executeResult prepared_statement).isOk = true)
    (hfail : windowSucceeds env w = false) :
    (∃ m, processWindow env w =
      ([execute_statement w.1 w.2], [],
       [⟨Level.error, "Failed during SQL execution or file operation: " ++ m⟩])) ∧
    (∃ m, LogEntry.mk Level.error ("Failed during SQL execution or file operation: " ++ m)
        ∈ (main env s e d).logs) ∧
    (main env s e d).submitted =
      prepared_statement ::
        ((windows s e d).map (fun w' => (processWindow env w').1)).flatten ∧
    (main env s e d).files =
      ((windows s e d).map (fun w' => (processWindow env w').2.1)).flatten ∧
    (∀ w' ∈ windows s e d, windowSucceeds env w' = true →
      general_file_name w'.1 w'.2 ∈ (main env s e d).files) := by
  obtain ⟨hsub, hfiles, hlogs, _⟩ := main_components env s e d hc hp
  obtain ⟨m, hm⟩ := processWindow_fail env w hfail
  have hsub' : (main env s e d).submitted =
      prepared_statement ::
        ((windows s e d).map (fun w' => (processWindow env w').1)).flatten := by
    rw [hsub, List.map_map]
    rfl
  have hfiles' : (main env s e d).files =
      ((windows s e d).map (fun w' => (processWindow env w').2.1)).flatten := by
    rw [hfiles, List.map_map]
    rfl
  refine ⟨⟨m, hm⟩, ⟨m, ?_⟩, hsub', hfiles', ?_⟩
  · refine hlogs _ w hw ?_
    rw [hm]
    exact List.mem_singleton.mpr rfl
  · intro w' hw' hsucc
    rw [hfiles']
    rw [List.mem_flatten]
    refine ⟨[general_file_name w'.1 w'.2], ?_, List.mem_singleton.mpr rfl⟩
    rw [List.mem_map]
    refine ⟨w', hw', ?_⟩
    rw [processWindow_success env w' hsucc]

/-- A fully succeeding environment: connection, preparation, every query
(returning the 15 source columns and no rows), every write and the
teardown all succeed. -/
def demoEnv : Env where
  connectResult := Except.ok ()
  executeResult := fun _ => Except.ok (requiredSourceCols, [])
  writeResult := fun _ => Except.ok ()
  closeResult := Except.ok ()

/-- An environment in which exactly the query of the window starting at
86400 fails, everything else succeeds. -/
def env3 : Env where
  connectResult := Except.ok ()
  executeResult := fun stmt =>
    if stmt = execute_statement 86400 172800 then Except.error "network"
    else Except.ok (requiredSourceCols, [])
  writeResult := fun _ => Except.ok ()
  closeResult := Except.ok ()

/-- An environment whose statement execution always fails, so that the
preparation step at line 50 fails. -/
def envPrep : Env where
  connectResult := Except.ok ()
  executeResult := fun _ => Except.error "badstatement"
  writeResult := fun _ => Except.ok ()
  closeResult := Except.ok ()

theorem windows_three : windows 0 259200 86400 =
    [(0, 86400), (86400, 172800), (172800, 259200)] := by
  rw [windows, dif_pos (by norm_num)]
  norm_num
  rw [windows, dif_pos (by norm_num)]
  norm_num
  rw [windows, dif_pos (by norm_num)]
  norm_num
  rw [windows, dif_neg (by norm_num)]

theorem windows_scenario : windows 1672531200 1672704000 86400 =
    [(1672531200, 1672617600), (1672617600, 1672704000)] := by
  rw [windows, dif_pos (by norm_num)]
  norm_num
  rw [windows, dif_pos (by norm_num)]
  norm_num
  rw [windows, dif_neg (by norm_num)]

theorem perWindowIsolation_witness :
    ∃ m, processWindow env3 (86400, 172800) =
      ([execute_statement 86400 172800], [],
       [⟨Level.error, "Failed during SQL execution or file operation: " ++ m⟩]) :=
  (perWindowIsolation env3 0 259200 86400 (86400, 172800)
    (by rw [windows_three]; decide) rfl rfl rfl).1

/-- C9: when the connection is established but the preparation statement
fails, the run logs the preparation error, closes cursor and connection,
and terminates with no window processed: the only submitted statement is
the preparation text, and no file is written. -/
theorem prepFailureAborts (env : Env) (s e d : Nat) (m : String)
    (hc : env.connectResult = Except.ok ())
    (hp : env.executeResult prepared_statement = Except.error m) :
    main env s e d =
      ⟨[prepared_statement], [],
       [⟨Level.info, "Database connection established successfully."⟩,
        ⟨Level.error, "Failed to prepare the SQL statement: " ++ m⟩], true⟩ := by
  unfold main
  simp only [hc, hp]

theorem prepFailureAborts_witness :
    main envPrep 0 259200 86400 =
      ⟨[prepared_statement], [],
       [⟨Level.info, "Database connection established successfully."⟩,
        ⟨Level.error, "Failed to prepare the SQL statement: " ++ "badstatement"⟩], true⟩ :=
  prepFailureAborts envPrep 0 259200 86400 "badstatement" rfl rfl

/-- C10: the preparation-stage statement text of line 47 is the fixed
single-space string - whitespace only, holding no SQL, independent of every
configuration input - and whenever a run submits anything at all, the first
submitted statement is exactly this constant. -/
theorem preparedStatement_constant :
    prepared_statement = " " ∧
    (∀ c ∈ prepared_statement.toList, c = ' ') ∧
    (∀ env s e d, (main env s e d).submitted = [] ∨
       (main env s e d).submitted.head? = some prepared_statement) := by
  refine ⟨rfl, by decide, ?_⟩
  intro env s e d
  unfold main
  cases env.connectResult with
  | error e2 => left; rfl
  | ok u =>
    cases env.executeResult prepared_statement with
    | error e2 => right; rfl
    | ok t => right; rfl

/-- C2: contrary to the parameter-binding requirement, the per-window
statement text interpolates the window epochs directly - the submitted text
is the fixed template with the two decimal epoch values embedded in it, two
different windows submit two different statement texts, and a run submits
one such interpolated text per window after the preparation text, so the
executed statement text is not a constant. -/
theorem executeStatement_interpolates :
    (∀ cur next : Nat, execute_statement cur next =
       "\n            EXECUTE flight_analysis USING " ++ toString cur ++ ", " ++
         toString next ++ "\n        ") ∧
    execute_statement 1672531200 1672617600 ≠ execute_statement 1672617600 1672704000 ∧
    (main demoEnv 1672531200 1672704000 86400).submitted =
      [prepared_statement, execute_statement 1672531200 1672617600,
       execute_statement 1672617600 1672704000] := by
  refine ⟨fun cur next => rfl, by decide, ?_⟩
  obtain ⟨hsub, -, -, -⟩ := main_components demoEnv 1672531200 1672704000 86400 rfl rfl
  rw [hsub, windows_scenario]
  rfl

/-- C5: the output file of a window is named start epoch, dash, end epoch,
underscore, start date, _to_, end date, .xlsx with dates rendered as
four-digit year, two-digit month, two-digit day; on the scenario range
2023-01-01T00:00:00Z to 2023-01-03T00:00:00Z with a one-day stride the run
yields exactly the two expected windows and writes exactly the two expected
file names. -/
theorem outputFileNaming :
    (∀ ws we : Nat, general_file_name ws we =
       toString ws ++ "-" ++ toString we ++ "_" ++ fmtDate ws ++ "_to_" ++
         fmtDate we ++ ".xlsx") ∧
    (windows 1672531200 1672704000 86400).length = 2 ∧
    (windows 1672531200 1672704000 86400).map (fun w => general_file_name w.1 w.2) =
      ["1672531200-1672617600_2023-01-01_to_2023-01-02.xlsx",
       "1672617600-1672704000_2023-01-02_to_2023-01-03.xlsx"] ∧
    (main demoEnv 1672531200 1672704000 86400).files =
      ["1672531200-1672617600_2023-01-01_to_2023-01-02.xlsx",
       "1672617600-1672704000_2023-01-02_to_2023-01-03.xlsx"] := by
  refine ⟨fun ws we => rfl, ?_, ?_, ?_⟩
  · rw [windows_scenario]
    rfl
  · rw [windows_scenario]
    rfl
  · obtain ⟨-, hfiles, -, -⟩ := main_components demoEnv 1672531200 1672704000 86400 rfl rfl
    rw [hfiles, windows_scenario]
    rfl
